import Mathlib

/-!
Verification of the ads-spend period-comparison service.

The development embeds, as executable Lean definitions:
* the natural-language mapper `api/domain/nlq_mapper.py`
  (metric keyword extraction and date-range generation, with dates as
  proleptic-Gregorian ordinals in the style of `datetime.date.toordinal`);
* the repository query of `api/data/bq_repository.py` (the BigQuery SQL is
  embedded by its documented semantics over in-memory daily rows);
* the service normalisation of `api/services/metrics_service.py` and the
  router glue of `api/routers/metrics.py`;
* the explicit-date endpoint of `api/main.py` (range validation, the
  zero-filling SQL and its percentage-delta columns).

Numeric columns are modelled as rationals; SQL `NULL` is `Option.none`.
-/

namespace AdsSpend

/-- Text after `_norm` (lowercasing and diacritic stripping) is modelled as a
list of characters. -/
abbrev Str := List Char

/-- Whether `pre` is an initial segment of `s`. -/
def beginsWith : Str → Str → Bool
  | [], _ => true
  | _ :: _, [] => false
  | c :: cs, d :: ds => c == d && beginsWith cs ds

/-- Python's substring test `needle in hay`. -/
def containsSub : Str → Str → Bool
  | [], needle => beginsWith needle []
  | c :: t, needle => beginsWith needle (c :: t) || containsSub t needle

/-- Table `NaturalLanguageToAPI.metric_mapping`: Python dicts iterate in insertion
order, so the scan order is cac, roas, spend, conversions, revenue,
performance, metrics. -/
def metric_mapping : List (Str × Str) :=
  [("cac".toList, "CAC".toList),
   ("roas".toList, "ROAS".toList),
   ("spend".toList, "spend".toList),
   ("conversions".toList, "conversions".toList),
   ("revenue".toList, "revenue".toList),
   ("performance".toList, "all".toList),
   ("metrics".toList, "all".toList)]

/-- Function `NaturalLanguageToAPI._extract_metrics`.  The loop body
`return [v] if v != 'all' else ['all']` returns `[v]` in every case, since
`v = 'all'` exactly for the keywords mapped to `'all'`. -/
def extract_metrics (q : Str) : List Str :=
  if containsSub q "cac".toList && containsSub q "roas".toList then
    ["CAC".toList, "ROAS".toList]
  else
    match metric_mapping.find? (fun kv => containsSub q kv.1) with
    | some kv => [kv.2]
    | none => ["all".toList]

/-- Table `NaturalLanguageToAPI.months`: month-name table (English and Spanish,
after diacritic stripping). -/
def months : List (Str × ℤ) :=
  [("january".toList, 1), ("february".toList, 2), ("march".toList, 3),
   ("april".toList, 4), ("may".toList, 5), ("june".toList, 6),
   ("july".toList, 7), ("august".toList, 8), ("september".toList, 9),
   ("october".toList, 10), ("november".toList, 11), ("december".toList, 12),
   ("enero".toList, 1), ("febrero".toList, 2), ("marzo".toList, 3),
   ("abril".toList, 4), ("mayo".toList, 5), ("junio".toList, 6),
   ("julio".toList, 7), ("agosto".toList, 8), ("septiembre".toList, 9),
   ("setiembre".toList, 9), ("octubre".toList, 10), ("noviembre".toList, 11),
   ("diciembre".toList, 12)]

/-- Dictionary lookup `self.months[w]`. -/
def assocLookup (w : Str) : List (Str × ℤ) → Option ℤ
  | [] => none
  | (k, v) :: rest => if k == w then some v else assocLookup w rest

/-- Gregorian leap-year rule (as used by `datetime.date`). -/
def isLeap (y : ℤ) : Bool :=
  decide ((y % 4 = 0 ∧ ¬ y % 100 = 0) ∨ y % 400 = 0)

/-- Length of a calendar month. -/
def daysInMonth (y m : ℤ) : ℤ :=
  if m = 2 then (if isLeap y then 29 else 28)
  else if m = 4 ∨ m = 6 ∨ m = 9 ∨ m = 11 then 30
  else 31

/-- Days in the months strictly before month `m` of a non-leap year. -/
def daysBeforeMonth (m : ℤ) : ℤ :=
  if m = 1 then 0 else if m = 2 then 31 else if m = 3 then 59
  else if m = 4 then 90 else if m = 5 then 120 else if m = 6 then 151
  else if m = 7 then 181 else if m = 8 then 212 else if m = 9 then 243
  else if m = 10 then 273 else if m = 11 then 304 else 334

/-- A `datetime.date` value (year, month, day). -/
structure Date where
  year : ℤ
  month : ℤ
  day : ℤ
deriving DecidableEq

/-- Days strictly before January 1st of year `y` in the proleptic Gregorian
calendar (`datetime` counts 0001-01-01 as ordinal 1).  Integer `/` on ℤ is
Euclidean division, which for the positive divisors used here coincides with
Python's floor division `//`. -/
def daysBeforeYear (y : ℤ) : ℤ :=
  365 * (y - 1) + (y - 1) / 4 - (y - 1) / 100 + (y - 1) / 400

/-- Python `datetime.date.toordinal`. -/
def toOrdinal (d : Date) : ℤ :=
  daysBeforeYear d.year + daysBeforeMonth d.month +
    (if 2 < d.month ∧ isLeap d.year = true then 1 else 0) + d.day

/-- The domain of `datetime.date`: a calendar-valid date with year ≥ 1. -/
def ValidDate (d : Date) : Prop :=
  1 ≤ d.year ∧ 1 ≤ d.month ∧ d.month ≤ 12 ∧ 1 ≤ d.day ∧
    d.day ≤ daysInMonth d.year d.month

instance (d : Date) : Decidable (ValidDate d) := by
  unfold ValidDate; infer_instance

/-- Function `NaturalLanguageToAPI._month_range(year, month)`:
`start = date(year, month, 1)` and
`end = start + relativedelta(months=1) - timedelta(days=1)`.
Adding one month to the first of a month lands on the first of the next
month (December rolls over the year), so the end is the day before that.
Both endpoints are returned as ordinals. -/
def month_range (y m : ℤ) : ℤ × ℤ :=
  let start := toOrdinal ⟨y, m, 1⟩
  let nextFirst := if m = 12 then toOrdinal ⟨y + 1, 1, 1⟩
                   else toOrdinal ⟨y, m + 1, 1⟩
  (start, nextFirst - 1)

/-- The time-period dictionaries produced by
`NaturalLanguageToAPI._extract_time_periods`:
`relDays role v` is `{"type": role, "value": v, "unit": "days"}`,
`relMonth role` is `{"type": role, "unit": "month"}`,
`namedMonth w` is `{"type": "month", "value": w}`, and
`relWeek role` is `{"type": role, "unit": "week"}`. -/
inductive TimePeriod where
  | relDays (role : Str) (value : ℕ)
  | relMonth (role : Str)
  | namedMonth (name : Str)
  | relWeek (role : Str)
deriving DecidableEq

/-- The four ISO dates of the generated `api_params`, as ordinals. -/
structure Params where
  first_start : ℤ
  first_end : ℤ
  second_start : ℤ
  second_end : ℤ
deriving DecidableEq

/-- Function `NaturalLanguageToAPI._generate_date_params`, branch for branch in the
source's order; `none` is the final `return {}`.  The second branch mirrors
the source in inspecting only `time_periods[0]`; `min` on dates equals `min`
on ordinals because the current month's first day, its last day and `today`
are compared within one month.  `date(y, m, 1) - timedelta(days=1)` is the
last day of the previous calendar month, written out by cases on January. -/
def generate_date_params (today : Date) : List TimePeriod → Option Params
  | [TimePeriod.relDays _ v, TimePeriod.relDays _ _] =>
      let t := toOrdinal today
      let second_start := t - ((v : ℤ) - 1)
      let first_end := second_start - 1
      some ⟨first_end - ((v : ℤ) - 1), first_end, second_start, t⟩
  | [TimePeriod.relMonth role, _] =>
      if role = "current".toList then
        let cur := month_range today.year today.month
        let prev : Date :=
          if today.month = 1 then ⟨today.year - 1, 12, 31⟩
          else ⟨today.year, today.month - 1,
                daysInMonth today.year (today.month - 1)⟩
        let last := month_range prev.year prev.month
        some ⟨last.1, last.2, cur.1, min cur.2 (toOrdinal today)⟩
      else none
  | [TimePeriod.namedMonth w1, TimePeriod.namedMonth w2] =>
      match assocLookup w1 months, assocLookup w2 months with
      | some m1, some m2 =>
          let r1 := month_range today.year m1
          let r2 := month_range today.year m2
          some ⟨r1.1, r1.2, r2.1, r2.2⟩
      | _, _ => none
  | [TimePeriod.relWeek _, TimePeriod.relWeek _] =>
      let t := toOrdinal today
      some ⟨t - 14, t - 8, t - 7, t - 1⟩
  | _ => none

/-- Period label used by both SQL queries. -/
inductive PeriodTag where
  | first
  | second
deriving DecidableEq

/-- A per-day row of `ads_spend_raw` after `base`'s `DATE(date)` cast: the
day's ordinal and its numeric `spend`, `conversions`, `revenue`. -/
structure MetricRow where
  dt : ℤ
  spend : ℚ
  conversions : ℚ
  revenue : ℚ
deriving DecidableEq

/-- An output row of the repository query's final `SELECT`. -/
structure PeriodRow where
  period : PeriodTag
  spend : ℚ
  conversions : ℚ
  revenue : ℚ
  CAC : Option ℚ
  ROAS : Option ℚ
deriving DecidableEq

/-- SQL `NULLIF(x, v)`. -/
def nullif : Option ℚ → ℚ → Option ℚ
  | none, _ => none
  | some x, v => if x = v then none else some x

/-- BigQuery `SAFE_DIVIDE(x, y)`: `NULL` when either operand is `NULL` or
the divisor is zero. -/
def safe_divide : Option ℚ → Option ℚ → Option ℚ
  | some x, some y => if y = 0 then none else some (x / y)
  | _, _ => none

/-- The `CASE` of the repository query's `labelled` step: `'first'` wins
when the two windows overlap, a day in neither window gets `NULL`. -/
def repoLabel (fs fe ss se dt : ℤ) : Option PeriodTag :=
  if fs ≤ dt ∧ dt ≤ fe then some PeriodTag.first
  else if ss ≤ dt ∧ dt ≤ se then some PeriodTag.second
  else none

/-- Rows that survive the `WHERE DATE(date) BETWEEN @first_start AND
@second_end` filter and are labelled `t`. -/
def rowsInPeriod (fs fe ss se : ℤ) (t : PeriodTag) (rows : List MetricRow) :
    List MetricRow :=
  rows.filter fun r =>
    decide (fs ≤ r.dt ∧ r.dt ≤ se) && (repoLabel fs fe ss se r.dt == some t)

/-- `SUM` of one column over a list of rows. -/
def sumQ (f : MetricRow → ℚ) (rows : List MetricRow) : ℚ := (rows.map f).sum

/-- One group of the repository query's `agg` + final `SELECT`.  `GROUP BY
period` emits a row only for a period with at least one matching day, hence
`none` for an empty period.  `base`'s per-day pre-aggregation commutes with
the per-period totals because the `CASE` label depends only on the day, so
the matching rows are summed directly. -/
def aggRow (fs fe ss se : ℤ) (rows : List MetricRow) (t : PeriodTag) :
    Option PeriodRow :=
  let rs := rowsInPeriod fs fe ss se t rows
  if rs.isEmpty then none
  else
    let s := sumQ MetricRow.spend rs
    let c := sumQ MetricRow.conversions rs
    let rev := sumQ MetricRow.revenue rs
    some ⟨t, s, c, rev, safe_divide (some s) (nullif (some c) 0),
          safe_divide (some rev) (nullif (some s) 0)⟩

/-- Function `BigQueryRepository.compare_periods`: the list of group rows (the
service keys them by tag, so the emission order is irrelevant). -/
def bq_compare_periods (fs fe ss se : ℤ) (rows : List MetricRow) :
    List PeriodRow :=
  (aggRow fs fe ss se rows PeriodTag.first).toList ++
    (aggRow fs fe ss se rows PeriodTag.second).toList

/-- A JSON-ish value of a result dictionary. -/
inductive JVal where
  | str (s : Str)
  | num (q : ℚ)
  | null
deriving DecidableEq

/-- The `period` column's string. -/
def periodName : PeriodTag → Str
  | PeriodTag.first => "first".toList
  | PeriodTag.second => "second".toList

/-- A nullable column as a JSON value. -/
def optJ : Option ℚ → JVal
  | none => JVal.null
  | some q => JVal.num q

/-- Python `dict(row)` for a repository row: keys in the `SELECT` order. -/
def rowDict (r : PeriodRow) : List (Str × JVal) :=
  [("period".toList, JVal.str (periodName r.period)),
   ("spend".toList, JVal.num r.spend),
   ("conversions".toList, JVal.num r.conversions),
   ("revenue".toList, JVal.num r.revenue),
   ("CAC".toList, optJ r.CAC),
   ("ROAS".toList, optJ r.ROAS)]

/-- Function `filter_metrics` inside `MetricsService.compare_periods`: the empty
dict stays empty, `["all"]` means no projection, otherwise keep `"period"`
and the requested keys. -/
def filter_metrics (metrics : List Str) (d : List (Str × JVal)) :
    List (Str × JVal) :=
  if d = [] then []
  else if metrics = ["all".toList] then d
  else d.filter fun kv => decide (kv.1 = "period".toList ∨ kv.1 ∈ metrics)

/-- The service's `{ first_period: ..., second_period: ... }` payload. -/
structure SvcResult where
  first_period : List (Str × JVal)
  second_period : List (Str × JVal)
deriving DecidableEq

/-- Function `MetricsService.compare_periods`: build `result_map` keyed by the
`period` column and take `result_map.get(tag, {})` — the empty dict when
the repository returned no row for that period. -/
def service_compare_periods (fs fe ss se : ℤ) (metrics : List Str)
    (rows : List MetricRow) : SvcResult :=
  let rws := bq_compare_periods fs fe ss se rows
  let firstD :=
    match rws.find? (fun r => r.period == PeriodTag.first) with
    | some r => rowDict r
    | none => []
  let secondD :=
    match rws.find? (fun r => r.period == PeriodTag.second) with
    | some r => rowDict r
    | none => []
  ⟨filter_metrics metrics firstD, filter_metrics metrics secondD⟩

/-- Python `str.lower` on normalised text. -/
def toLowerStr (s : Str) : Str := s.map Char.toLower

/-- Python `str.strip`. -/
def stripStr (s : Str) : Str :=
  ((s.dropWhile Char.isWhitespace).reverse.dropWhile Char.isWhitespace).reverse

/-- Handler `routers/metrics.py compare_periods`: parse the `metrics` query string
(`["all"] if metrics.lower() == "all" else [m.strip() for m in
metrics.split(",")]`) and delegate to the service.  There is no start/end
validation on this path. -/
def router_compare_periods (fs fe ss se : ℤ) (metricsParam : Str)
    (rows : List MetricRow) : SvcResult :=
  let metricsList :=
    if toLowerStr metricsParam = "all".toList then ["all".toList]
    else (List.splitOn ',' metricsParam).map stripStr
  service_compare_periods fs fe ss se metricsList rows

/-- Round half away from zero to an integer (BigQuery `ROUND`). -/
def roundHalfAway (q : ℚ) : ℤ :=
  if 0 ≤ q then ⌊q + 1 / 2⌋ else -⌊-q + 1 / 2⌋

/-- BigQuery `ROUND(x, 2)`. -/
def bqRound2 (q : ℚ) : ℚ := (roundHalfAway (q * 100) : ℚ) / 100

/-- SQL subtraction (NULL-propagating). -/
def optSub : Option ℚ → Option ℚ → Option ℚ
  | some a, some b => some (a - b)
  | _, _ => none

/-- SQL multiplication by a constant (NULL-propagating). -/
def optMul (x : Option ℚ) (c : ℚ) : Option ℚ := x.map (· * c)

/-- A delta column of `main.py`'s query:
`ROUND(SAFE_DIVIDE(new - old, NULLIF(old, 0)) * 100, 2)`. -/
def pct_delta (new old : Option ℚ) : Option ℚ :=
  (optMul (safe_divide (optSub new old) (nullif old 0)) 100).map bqRound2

/-- The single result row of `main.py`'s query. -/
structure MainMetrics where
  spend_first : ℚ
  spend_second : ℚ
  conversions_first : ℚ
  conversions_second : ℚ
  revenue_first : ℚ
  revenue_second : ℚ
  CAC_first : Option ℚ
  CAC_second : Option ℚ
  ROAS_first : Option ℚ
  ROAS_second : Option ℚ
  spend_delta_pct : Option ℚ
  conversions_delta_pct : Option ℚ
  revenue_delta_pct : Option ℚ
  CAC_delta_pct : Option ℚ
  ROAS_delta_pct : Option ℚ
deriving DecidableEq

/-- The SQL of `main.py compare_periods`: days are labelled
`'first_period'` first (`CASE` order), the `periods`/`LEFT JOIN`/`IFNULL`
step zero-fills both periods, `revenue` is `conversions * 100`, ratios use
`SAFE_DIVIDE`/`NULLIF` and the ratio and delta columns are `ROUND`ed to two
decimals.  Per-day pre-aggregation again commutes with the period sums. -/
def mainAggregate (fs fe ss se : ℤ) (rows : List MetricRow) : MainMetrics :=
  let inSpan := rows.filter fun r => decide (fs ≤ r.dt ∧ r.dt ≤ se)
  let fRows := inSpan.filter fun r => decide (fs ≤ r.dt ∧ r.dt ≤ fe)
  let sRows := inSpan.filter fun r =>
    decide (¬(fs ≤ r.dt ∧ r.dt ≤ fe) ∧ ss ≤ r.dt ∧ r.dt ≤ se)
  let s1 := sumQ MetricRow.spend fRows
  let c1 := sumQ MetricRow.conversions fRows
  let s2 := sumQ MetricRow.spend sRows
  let c2 := sumQ MetricRow.conversions sRows
  let cacF := safe_divide (some s1) (nullif (some c1) 0)
  let cacS := safe_divide (some s2) (nullif (some c2) 0)
  let roasF := safe_divide (some (c1 * 100)) (nullif (some s1) 0)
  let roasS := safe_divide (some (c2 * 100)) (nullif (some s2) 0)
  { spend_first := s1, spend_second := s2,
    conversions_first := c1, conversions_second := c2,
    revenue_first := c1 * 100, revenue_second := c2 * 100,
    CAC_first := cacF.map bqRound2, CAC_second := cacS.map bqRound2,
    ROAS_first := roasF.map bqRound2, ROAS_second := roasS.map bqRound2,
    spend_delta_pct := pct_delta (some s2) (some s1),
    conversions_delta_pct := pct_delta (some c2) (some c1),
    revenue_delta_pct := pct_delta (some (c2 * 100)) (some (c1 * 100)),
    CAC_delta_pct := pct_delta cacS cacF,
    ROAS_delta_pct := pct_delta roasS roasF }

/-- An `HTTPException` raised by the endpoint. -/
structure ApiError where
  status : ℕ
  detail : Str
deriving DecidableEq

/-- Handler `main.py compare_periods` after date parsing: the two range
validations, then the query. -/
def main_compare_periods (fs fe ss se : ℤ) (rows : List MetricRow) :
    Except ApiError MainMetrics :=
  if fs > fe then
    Except.error ⟨400, "First period start must be before end".toList⟩
  else if ss > se then
    Except.error ⟨400, "Second period start must be before end".toList⟩
  else Except.ok (mainAggregate fs fe ss se rows)

/-! ### Helper lemmas -/

theorem daysInMonth_pos (y m : ℤ) : 1 ≤ daysInMonth y m := by
  unfold daysInMonth; split_ifs <;> omega

/-- A successful association lookup returns a stored value. -/
theorem assocLookup_mem (w : Str) (l : List (Str × ℤ)) (m : ℤ)
    (h : assocLookup w l = some m) : m ∈ l.map Prod.snd := by
  induction l with
  | nil => simp [assocLookup] at h
  | cons kv rest ih =>
    obtain ⟨k, v⟩ := kv
    rw [assocLookup] at h
    split at h
    · simp at h; simp [h]
    · simp [ih h]

/-- Every month number stored in the `months` table lies in `[1, 12]`. -/
theorem assocLookup_months_bounds (w : Str) (m : ℤ)
    (h : assocLookup w months = some m) : 1 ≤ m ∧ m ≤ 12 := by
  have hmem := assocLookup_mem w months m h
  have hall : ∀ x ∈ months.map Prod.snd, 1 ≤ x ∧ x ≤ 12 := by decide
  exact hall m hmem

/-- The day before the first of the next month is the last day of this
month: the end computed by `_month_range` is calendar-correct. -/
theorem month_range_end (y m : ℤ) (h1 : 1 ≤ m) (h2 : m ≤ 12) :
    (month_range y m).2 = toOrdinal ⟨y, m, daysInMonth y m⟩ := by
  interval_cases m <;>
    simp only [month_range, toOrdinal, daysBeforeYear, daysBeforeMonth,
      daysInMonth, isLeap, decide_eq_true_eq] <;>
    norm_num <;> split_ifs <;> omega

/-- Within one month the ordinal is the base of the month plus the day. -/
theorem toOrdinal_day (y m d : ℤ) :
    toOrdinal ⟨y, m, d⟩ = toOrdinal ⟨y, m, 1⟩ + (d - 1) := by
  simp only [toOrdinal]; ring

/-- The start computed by `_month_range` is the first of the month. -/
theorem month_range_start (y m : ℤ) :
    (month_range y m).1 = toOrdinal ⟨y, m, 1⟩ := rfl

/-- A full calendar month is a non-empty range. -/
theorem month_range_ordered (y m : ℤ) (h1 : 1 ≤ m) (h2 : m ≤ 12) :
    (month_range y m).1 ≤ (month_range y m).2 := by
  rw [month_range_start, month_range_end y m h1 h2,
      toOrdinal_day y m (daysInMonth y m)]
  have := daysInMonth_pos y m
  omega

/-- The first of the month never lies after `today` itself. -/
theorem first_of_month_le (today : Date) (hd1 : 1 ≤ today.day) :
    toOrdinal ⟨today.year, today.month, 1⟩ ≤ toOrdinal today := by
  have h : toOrdinal today =
      toOrdinal ⟨today.year, today.month, 1⟩ + (today.day - 1) :=
    toOrdinal_day today.year today.month today.day
  omega

/-- Composite `SAFE_DIVIDE(x, NULLIF(y, 0))` is `NULL` exactly when `y = 0` and is
the exact quotient otherwise. -/
theorem safe_divide_nullif (x y : ℚ) :
    (safe_divide (some x) (nullif (some y) 0) = none ↔ y = 0) ∧
      (y ≠ 0 → safe_divide (some x) (nullif (some y) 0) = some (x / y)) := by
  by_cases h : y = 0 <;> simp [nullif, safe_divide, h]

/-! ### Claim theorems -/

/-- Claim C3: for every `today` and every `N`, the relative-days branch of
the date-range generator yields `second = [today - N + 1, today]` and
`first = [second_start - N, second_start - 1]`; the two windows are
contiguous (`first_end + 1 = second_start`), non-overlapping and each
exactly `N` days long; in particular with `today = 2025-06-30` and
`N = 30`, `second = [2025-06-01, 2025-06-30]` and
`first = [2025-05-02, 2025-05-31]`. -/
theorem relative_days_windows (today : Date) (N : ℕ) :
    generate_date_params today
        [TimePeriod.relDays "last".toList N,
         TimePeriod.relDays "prior".toList N] =
      some ⟨toOrdinal today - N + 1 - N, toOrdinal today - N + 1 - 1,
            toOrdinal today - N + 1, toOrdinal today⟩ ∧
    (toOrdinal today - N + 1 - 1) + 1 = toOrdinal today - N + 1 ∧
    toOrdinal today - N + 1 - 1 < toOrdinal today - N + 1 ∧
    toOrdinal today - (toOrdinal today - N + 1) + 1 = N ∧
    (toOrdinal today - N + 1 - 1) - (toOrdinal today - N + 1 - N) + 1 = N ∧
    generate_date_params ⟨2025, 6, 30⟩
        [TimePeriod.relDays "last".toList 30,
         TimePeriod.relDays "prior".toList 30] =
      some ⟨toOrdinal ⟨2025, 5, 2⟩, toOrdinal ⟨2025, 5, 31⟩,
            toOrdinal ⟨2025, 6, 1⟩, toOrdinal ⟨2025, 6, 30⟩⟩ := by
  refine ⟨?_, by omega, by omega, by omega, by omega, by decide⟩
  simp only [generate_date_params, Option.some.injEq, Params.mk.injEq]
  refine ⟨by omega, by omega, by omega, trivial⟩

/-- Claim C5 (amended): when not both "cac" and "roas" occur, metric
extraction scans the keyword table in the order cac, roas, spend,
conversions, revenue, performance, metrics (the insertion order of
`metric_mapping`) and returns the first matching keyword's canonical
metric; hence a question containing "spend" and "conversions" (and neither
"cac" nor "roas") yields `["spend"]`, a question containing "roas" but not
"cac" yields `["ROAS"]`, and a question containing no keyword yields
`["all"]`. -/
theorem metric_extraction_order (q : Str) :
    (containsSub q "spend".toList = true →
      containsSub q "conversions".toList = true →
      containsSub q "cac".toList = false →
      containsSub q "roas".toList = false →
      extract_metrics q = ["spend".toList]) ∧
    (containsSub q "roas".toList = true →
      containsSub q "cac".toList = false →
      extract_metrics q = ["ROAS".toList]) ∧
    (containsSub q "cac".toList = false →
      containsSub q "roas".toList = false →
      containsSub q "spend".toList = false →
      containsSub q "conversions".toList = false →
      containsSub q "revenue".toList = false →
      containsSub q "performance".toList = false →
      containsSub q "metrics".toList = false →
      extract_metrics q = ["all".toList]) := by
  refine ⟨fun h1 h2 h3 h4 => ?_, fun h1 h2 => ?_,
          fun h1 h2 h3 h4 h5 h6 h7 => ?_⟩ <;>
    simp only [String.toList] at * <;>
    simp [extract_metrics, metric_mapping, List.find?, *]

/-- Claim C5 counterexample: a question containing only "roas" yields
`["ROAS"]`, not `["all"]` as claimed — "roas" is scanned second, right
after "cac", not skipped. -/
theorem metric_extraction_roas_counterexample :
    extract_metrics "roas".toList = ["ROAS".toList] ∧
      ["ROAS".toList] ≠ (["all".toList] : List Str) := by decide

theorem metric_extraction_order_witness :
    extract_metrics "conversions and spend".toList = ["spend".toList] ∧
    extract_metrics "roas".toList = ["ROAS".toList] ∧
    extract_metrics "hola".toList = ["all".toList] :=
  ⟨(metric_extraction_order "conversions and spend".toList).1 (by decide)
      (by decide) (by decide) (by decide),
   (metric_extraction_order "roas".toList).2.1 (by decide) (by decide),
   (metric_extraction_order "hola".toList).2.2 (by decide) (by decide)
      (by decide) (by decide) (by decide) (by decide) (by decide)⟩

/-- Claim C10: keyword detection is plain substring containment on the
normalised question: any question containing the character sequence "cac"
but not "roas" extracts `["CAC"]`, even when "cac" sits inside a longer
word. -/
theorem metric_extraction_substring (q : Str)
    (hc : containsSub q "cac".toList = true)
    (hr : containsSub q "roas".toList = false) :
    extract_metrics q = ["CAC".toList] := by
  simp only [String.toList] at hc hr ⊢
  simp [extract_metrics, metric_mapping, List.find?, hc, hr]

theorem metric_extraction_substring_witness :
    containsSub "cacao".toList "cac".toList = true ∧
    containsSub "cacao".toList "roas".toList = false ∧
    extract_metrics "cacao".toList = ["CAC".toList] :=
  ⟨by decide, by decide,
   metric_extraction_substring "cacao".toList (by decide) (by decide)⟩

/-- Claim C7: for every valid `today`, the current/last-month branch yields
`second = [first of today's month, min(today, last day of today's month)]`
— so the current-month window's end never exceeds `today` — and `first` is
the full previous calendar month, with January rolling back to December of
the prior year (a 31-day month). -/
theorem current_last_month_windows (today : Date) (hv : ValidDate today) :
    generate_date_params today
        [TimePeriod.relMonth "current".toList,
         TimePeriod.relMonth "last".toList] =
      some ⟨toOrdinal ⟨(if today.month = 1 then today.year - 1 else today.year),
                       (if today.month = 1 then 12 else today.month - 1), 1⟩,
            toOrdinal ⟨(if today.month = 1 then today.year - 1 else today.year),
                       (if today.month = 1 then 12 else today.month - 1),
                       daysInMonth
                         (if today.month = 1 then today.year - 1 else today.year)
                         (if today.month = 1 then 12 else today.month - 1)⟩,
            toOrdinal ⟨today.year, today.month, 1⟩,
            min (toOrdinal today)
              (toOrdinal ⟨today.year, today.month,
                          daysInMonth today.year today.month⟩)⟩ ∧
    min (toOrdinal today)
        (toOrdinal ⟨today.year, today.month,
                    daysInMonth today.year today.month⟩) ≤
      toOrdinal today ∧
    (today.month = 1 → daysInMonth (today.year - 1) 12 = 31) := by
  obtain ⟨hy, hm1, hm2, hd1, hd2⟩ := hv
  refine ⟨?_, min_le_left _ _, fun _ => by norm_num [daysInMonth]⟩
  simp only [generate_date_params, reduceIte, Option.some.injEq, Params.mk.injEq]
  by_cases h : today.month = 1
  · simp only [h, reduceIte]
    exact ⟨month_range_start _ _,
           month_range_end _ _ (by norm_num) (by norm_num),
           month_range_start _ _,
           by rw [month_range_end today.year 1 (by norm_num) (by norm_num)]
              exact min_comm _ _⟩
  · simp only [if_neg h]
    exact ⟨month_range_start _ _,
           month_range_end _ _ (by omega) (by omega),
           month_range_start _ _,
           by rw [month_range_end today.year today.month hm1 hm2]
              exact min_comm _ _⟩

theorem current_last_month_windows_witness :
    generate_date_params ⟨2026, 1, 15⟩
        [TimePeriod.relMonth "current".toList,
         TimePeriod.relMonth "last".toList] =
      some ⟨toOrdinal ⟨2025, 12, 1⟩, toOrdinal ⟨2025, 12, 31⟩,
            toOrdinal ⟨2026, 1, 1⟩, toOrdinal ⟨2026, 1, 15⟩⟩ :=
  (current_last_month_windows ⟨2026, 1, 15⟩ (by decide)).1

/-- Claim C8: for any two recognised month names, both months are resolved
against `today`'s year and mapped to their full calendar span, and phrase
order is preserved: the first-named month becomes `first` and the
second-named month `second`, regardless of calendar order. -/
theorem named_month_windows (today : Date) (w1 w2 : Str) (m1 m2 : ℤ)
    (h1 : assocLookup w1 months = some m1)
    (h2 : assocLookup w2 months = some m2) :
    generate_date_params today
        [TimePeriod.namedMonth w1, TimePeriod.namedMonth w2] =
      some ⟨toOrdinal ⟨today.year, m1, 1⟩,
            toOrdinal ⟨today.year, m1, daysInMonth today.year m1⟩,
            toOrdinal ⟨today.year, m2, 1⟩,
            toOrdinal ⟨today.year, m2, daysInMonth today.year m2⟩⟩ := by
  obtain ⟨ha1, hb1⟩ := assocLookup_months_bounds w1 m1 h1
  obtain ⟨ha2, hb2⟩ := assocLookup_months_bounds w2 m2 h2
  simp only [generate_date_params, h1, h2, Option.some.injEq, Params.mk.injEq]
  exact ⟨month_range_start _ _, month_range_end _ _ ha1 hb1,
         month_range_start _ _, month_range_end _ _ ha2 hb2⟩

/-- Scenario "june vs may" anywhere in 2025: `first` is June, `second` is May —
phrase order, not calendar order. -/
theorem named_month_windows_witness :
    generate_date_params ⟨2025, 8, 10⟩
        [TimePeriod.namedMonth "june".toList,
         TimePeriod.namedMonth "may".toList] =
      some ⟨toOrdinal ⟨2025, 6, 1⟩, toOrdinal ⟨2025, 6, 30⟩,
            toOrdinal ⟨2025, 5, 1⟩, toOrdinal ⟨2025, 5, 31⟩⟩ :=
  named_month_windows ⟨2025, 8, 10⟩ "june".toList "may".toList 6 5
    (by decide) (by decide)

/-- Claim C6 (amended): for a valid `today`, every range generated from a
recognised pair whose relative-days counts are at least 1 satisfies
`start ≤ end`; a relative-days pair with parsed count 0 — which the
recogniser's regex admits — violates the invariant (see the
counterexample). -/
theorem generated_ranges_ordered (today : Date) (tps : List TimePeriod)
    (p : Params) (hv : ValidDate today)
    (hdays : ∀ role v, TimePeriod.relDays role v ∈ tps → 1 ≤ v)
    (hp : generate_date_params today tps = some p) :
    p.first_start ≤ p.first_end ∧ p.second_start ≤ p.second_end := by
  obtain ⟨hy, hm1, hm2, hd1, hd2⟩ := hv
  rcases tps with _ | ⟨t1, _ | ⟨t2, _ | ⟨t3, rest⟩⟩⟩
  · simp [generate_date_params] at hp
  · cases t1 <;> simp [generate_date_params] at hp
  · cases t1 with
    | relDays role v =>
        cases t2 with
        | relDays role2 v2 =>
            have h1 : 1 ≤ v := hdays role v (by simp)
            simp only [generate_date_params, Option.some.injEq] at hp
            subst hp
            constructor <;> simp <;> omega
        | relMonth r => simp [generate_date_params] at hp
        | namedMonth w => simp [generate_date_params] at hp
        | relWeek r => simp [generate_date_params] at hp
    | relMonth role =>
        by_cases hr : role = "current".toList
        · simp only [generate_date_params, hr, reduceIte, Option.some.injEq] at hp
          subst hp
          constructor
          · by_cases h : today.month = 1
            · simp only [h, reduceIte]
              exact month_range_ordered _ _ (by norm_num) (by norm_num)
            · simp only [if_neg h]
              exact month_range_ordered _ _ (by omega) (by omega)
          · refine le_min ?_ ?_
            · exact month_range_ordered _ _ hm1 hm2
            · rw [month_range_start]
              exact first_of_month_le today hd1
        · simp only [String.toList] at hr
          simp [generate_date_params, hr] at hp
    | namedMonth w1 =>
        cases t2 with
        | namedMonth w2 =>
            simp only [generate_date_params] at hp
            rcases e1 : assocLookup w1 months with _ | m1
            · simp [e1] at hp
            · rcases e2 : assocLookup w2 months with _ | m2
              · simp [e1, e2] at hp
              · simp only [e1, e2, Option.some.injEq] at hp
                obtain ⟨hA1, hB1⟩ := assocLookup_months_bounds w1 m1 e1
                obtain ⟨hA2, hB2⟩ := assocLookup_months_bounds w2 m2 e2
                subst hp
                exact ⟨month_range_ordered _ _ hA1 hB1,
                       month_range_ordered _ _ hA2 hB2⟩
        | relDays r v => simp [generate_date_params] at hp
        | relMonth r => simp [generate_date_params] at hp
        | relWeek r => simp [generate_date_params] at hp
    | relWeek role =>
        cases t2 with
        | relWeek r2 =>
            simp only [generate_date_params, Option.some.injEq] at hp
            subst hp
            constructor <;> simp <;> omega
        | relDays r v => simp [generate_date_params] at hp
        | relMonth r => simp [generate_date_params] at hp
        | namedMonth w => simp [generate_date_params] at hp
  · cases t1 <;> cases t2 <;> simp [generate_date_params] at hp

/-- Claim C6 counterexample: the pair parsed from "last 0 days vs prior 0
days" (the recogniser's regex admits the count 0) generates windows with
start = end + 1: with `today = 2025-06-30` (ordinal 739432) the second
window is `[739433, 739432]`, so `start ≤ end` fails. -/
theorem generated_ranges_zero_days_counterexample :
    generate_date_params ⟨2025, 6, 30⟩
        [TimePeriod.relDays "last".toList 0,
         TimePeriod.relDays "prior".toList 0] =
      some ⟨739433, 739432, 739433, 739432⟩ ∧
    ¬((739433 : ℤ) ≤ 739432) := by decide

theorem generated_ranges_ordered_witness :
    (739373 : ℤ) ≤ 739402 ∧ (739403 : ℤ) ≤ 739432 :=
  generated_ranges_ordered ⟨2025, 6, 30⟩
    [TimePeriod.relDays "last".toList 30,
     TimePeriod.relDays "prior".toList 30]
    ⟨739373, 739402, 739403, 739432⟩ (by decide)
    (fun role v h => by
      simp at h
      rcases h with ⟨-, rfl⟩ | ⟨-, rfl⟩ <;> norm_num)
    (by decide)

/-- Claim C1 (evaluation at the failing input): with a row only in the
first window and none in the second, `MetricsService.compare_periods`
returns an empty object for `second_period` — not the zeroed aggregate
with null CAC/ROAS described by the spec (the repository's own docstring
promises "two rows (period in ['first','second'])", yet its `GROUP BY`
emits no row for an empty period and the service turns the missing key
into `{}`). -/
theorem service_empty_second_period :
    service_compare_periods 0 10 20 30 ["all".toList] [⟨5, 100, 4, 400⟩] =
      ⟨[("period".toList, JVal.str "first".toList),
        ("spend".toList, JVal.num 100),
        ("conversions".toList, JVal.num 4),
        ("revenue".toList, JVal.num 400),
        ("CAC".toList, JVal.num 25),
        ("ROAS".toList, JVal.num 4)], []⟩ := by
  have hb1 : (PeriodTag.first == PeriodTag.first) = true := by decide
  have hb2 : (PeriodTag.first == PeriodTag.second) = false := by decide
  norm_num [service_compare_periods, hb1, hb2, bq_compare_periods, aggRow,
    rowsInPeriod, repoLabel, sumQ, safe_divide, nullif, filter_metrics,
    rowDict, optJ, periodName, List.find?]

/-- Claim C2: every period aggregate produced by the repository comparator
has `CAC = NULL` iff its summed conversions are zero and otherwise exactly
`spend / conversions`, and `ROAS = NULL` iff its summed spend is zero and
otherwise exactly `revenue / spend`; a zero divisor never errors. -/
theorem cac_roas_null_iff (fs fe ss se : ℤ) (rows : List MetricRow)
    (r : PeriodRow) (hr : r ∈ bq_compare_periods fs fe ss se rows) :
    (r.CAC = none ↔ r.conversions = 0) ∧
    (r.conversions ≠ 0 → r.CAC = some (r.spend / r.conversions)) ∧
    (r.ROAS = none ↔ r.spend = 0) ∧
    (r.spend ≠ 0 → r.ROAS = some (r.revenue / r.spend)) := by
  unfold bq_compare_periods at hr
  rw [List.mem_append] at hr
  have h' : aggRow fs fe ss se rows PeriodTag.first = some r ∨
      aggRow fs fe ss se rows PeriodTag.second = some r := by
    rcases hr with h | h
    · exact Or.inl (Option.mem_def.mp (Option.mem_toList.mp h))
    · exact Or.inr (Option.mem_def.mp (Option.mem_toList.mp h))
  rcases h' with h | h <;>
    (simp only [aggRow] at h
     split at h
     · exact absurd h (by simp)
     · rw [Option.some.injEq] at h
       subst h
       exact ⟨(safe_divide_nullif _ _).1, (safe_divide_nullif _ _).2,
              (safe_divide_nullif _ _).1, (safe_divide_nullif _ _).2⟩)

theorem cac_roas_null_iff_witness :
    (some (5 : ℚ) = none ↔ (2 : ℚ) = 0) ∧
    ((2 : ℚ) ≠ 0 → some (5 : ℚ) = some ((10 : ℚ) / 2)) ∧
    (some (5 : ℚ) = none ↔ (10 : ℚ) = 0) ∧
    ((10 : ℚ) ≠ 0 → some (5 : ℚ) = some ((50 : ℚ) / 10)) :=
  cac_roas_null_iff 0 10 20 30 [⟨5, 10, 2, 50⟩]
    ⟨PeriodTag.first, 10, 2, 50, some 5, some 5⟩
    (by norm_num [bq_compare_periods, aggRow, rowsInPeriod, repoLabel, sumQ,
          safe_divide, nullif])

/-- Claim C4 (amended): the explicit-date endpoint of `main.py` rejects an
inverted period (`start > end`) with HTTP 400 before running the query; the
`/metrics/compare-periods` router, by contrast, performs no such validation
(see its counterexample theorem). -/
theorem main_validates_ranges (fs fe ss se : ℤ) (rows : List MetricRow) :
    (fs > fe → main_compare_periods fs fe ss se rows =
      Except.error ⟨400, "First period start must be before end".toList⟩) ∧
    (fs ≤ fe → ss > se → main_compare_periods fs fe ss se rows =
      Except.error ⟨400, "Second period start must be before end".toList⟩) := by
  constructor
  · intro h
    simp [main_compare_periods, h]
  · intro h1 h2
    have h3 : ¬ fs > fe := by omega
    simp [main_compare_periods, h3, h2]

theorem main_validates_ranges_witness :
    main_compare_periods 5 3 0 0 [] =
      Except.error ⟨400, "First period start must be before end".toList⟩ ∧
    main_compare_periods 0 0 5 3 [] =
      Except.error ⟨400, "Second period start must be before end".toList⟩ :=
  ⟨(main_validates_ranges 5 3 0 0 []).1 (by norm_num),
   (main_validates_ranges 0 0 5 3 []).2 (by norm_num) (by norm_num)⟩

/-- Claim C4 counterexample: the router path performs no start > end
validation — with `first_start = 50 > first_end = 40` it still invokes the
comparator and returns an aggregated (non-error) result; the inverted first
range simply matches no rows. -/
theorem router_no_validation :
    router_compare_periods 50 40 60 70 "all".toList [⟨65, 7, 2, 30⟩] =
      ⟨[], [("period".toList, JVal.str "second".toList),
            ("spend".toList, JVal.num 7),
            ("conversions".toList, JVal.num 2),
            ("revenue".toList, JVal.num 30),
            ("CAC".toList, JVal.num (7 / 2)),
            ("ROAS".toList, JVal.num (30 / 7))]⟩ := by
  have hm : toLowerStr ['a', 'l', 'l'] = ['a', 'l', 'l'] := by decide
  have hb1 : (PeriodTag.second == PeriodTag.first) = false := by decide
  have hb2 : (PeriodTag.second == PeriodTag.second) = true := by decide
  norm_num [router_compare_periods, hm, hb1, hb2, service_compare_periods,
    bq_compare_periods, aggRow, rowsInPeriod, repoLabel, sumQ, safe_divide,
    nullif, filter_metrics, rowDict, optJ, periodName, List.find?]

/-- Claim C9: `pct_delta(new, old)` is `NULL` exactly when either input is
`NULL` or `old = 0`, and otherwise is `(new - old) / old * 100` rounded to
two decimals; a zero `old` never raises a division error. -/
theorem pct_delta_null_iff (new old : Option ℚ) (n o : ℚ) :
    (pct_delta new old = none ↔ new = none ∨ old = none ∨ old = some 0) ∧
    (new = some n → old = some o → o ≠ 0 →
      pct_delta new old = some (bqRound2 ((n - o) / o * 100))) := by
  constructor
  · rcases new with _ | a <;> rcases old with _ | b <;>
      simp [pct_delta, optSub, optMul, nullif, safe_divide]
    by_cases hb : b = 0 <;> simp [hb]
  · rintro rfl rfl h
    simp [pct_delta, optSub, optMul, nullif, safe_divide, h]

theorem pct_delta_null_iff_witness :
    pct_delta (some 150) (some 100) = some 50 := by
  have h := (pct_delta_null_iff (some 150) (some 100) 150 100).2 rfl rfl
    (by norm_num)
  rw [h]
  norm_num [bqRound2, roundHalfAway]

end AdsSpend
